import Mathlib

/-!
Verification of the checkpoint/incremental-ingestion core of the
`naccdata/reporting-lambdas` repository.

The development shallowly embeds the modules
`checkpoint_lambda/models.py`, `checkpoint_lambda/checkpoint.py`,
`checkpoint_lambda/checkpoint_store.py` and
`checkpoint_lambda/s3_retriever.py`.

Modelling conventions:
* A polars `DataFrame` holding visit events is modelled at the row level as a
  `List VisitEvent` (rows in frame order).  Column dtypes, which matter for the
  schema claims, are modelled separately by `Dtype`-valued schemas.
* `datetime` timestamps are modelled as `Int` (microseconds since the epoch,
  UTC instants); comparisons on timestamps are integer comparisons.
* Polars `df.sort("timestamp")` is modelled by `sortByTimestamp`, a sort by
  the timestamp order.  The source invokes `sort` without
  `maintain_order=True`, so polars does not promise any particular order of
  rows with equal timestamps; the theorems below therefore use only the
  sortedness and permutation properties of `sortByTimestamp`, never the tie
  order of the concrete sorting algorithm chosen here.
* S3 and parquet I/O is modelled by passing the outcome of each storage
  operation (listing, per-key fetch, head_object, read_parquet) as an explicit
  oracle argument; Python exceptions become `Except` results.
-/

/-- Event action type, the `VisitEventType` literal of `models.py`:
`submit | delete | not-pass-qc | pass-qc`. -/
inductive VisitEventType where
  | submit
  | delete
  | notPassQc
  | passQc
deriving DecidableEq, Repr

/-- Datatype names, the `DatatypeNameType` literal of `models.py`. -/
inductive DatatypeNameType where
  | apoe
  | biomarker
  | dicom
  | enrollment
  | form
  | geneticAvailability
  | gwas
  | imputation
  | scanAnalysis
deriving DecidableEq, Repr

/-- Module names, the `ModuleName` literal of `models.py`: `UDS | FTLD | LBD | MDS`. -/
inductive ModuleName where
  | UDS
  | FTLD
  | LBD
  | MDS
deriving DecidableEq, Repr

/-- A validated visit event, the `VisitEvent` pydantic model of `models.py`
(fields in declaration order).  `timestamp` is an Int instant (microseconds
since epoch, UTC). -/
structure VisitEvent where
  action : VisitEventType
  study : String
  pipeline_adcid : Int
  project_label : String
  center_label : String
  gear_name : String
  ptid : String
  visit_date : String
  visit_number : Option String
  datatype : DatatypeNameType
  module : Option ModuleName
  packet : Option String
  timestamp : Int
deriving DecidableEq, Repr

/-- Timestamp order on visit events: the comparison used by
`df.sort("timestamp")` in `Checkpoint.add_events`. -/
def tsLE (a b : VisitEvent) : Prop := a.timestamp ≤ b.timestamp

instance : DecidableRel tsLE := fun a b =>
  inferInstanceAs (Decidable (a.timestamp ≤ b.timestamp))

instance : IsTotal VisitEvent tsLE :=
  ⟨fun a b => Int.le_total a.timestamp b.timestamp⟩

instance : IsTrans VisitEvent tsLE :=
  ⟨fun _ _ _ hab hbc => le_trans hab hbc⟩

/-- Model of polars `df.sort("timestamp")` (row level).  The source calls
`sort` with the default `maintain_order=False`, so the relative order of rows
with equal timestamps is not specified by polars; only the sortedness and
permutation properties of this function are used in theorems. -/
def sortByTimestamp (rows : List VisitEvent) : List VisitEvent :=
  List.insertionSort tsLE rows

/-- Row content of `create_checkpoint_dataframe()` in `checkpoint.py`: an
empty frame (its dtype schema is `checkpointSchema` below). -/
def create_checkpoint_dataframe : List VisitEvent := []

/-- Row content of `events_to_dataframe(events)` in `checkpoint.py`: for an
empty list the empty checkpoint frame, otherwise a frame holding the events in
input order (one row per `model_dump()` dict). -/
def events_to_dataframe (events : List VisitEvent) : List VisitEvent :=
  if events.isEmpty then create_checkpoint_dataframe else events

/-- The `Checkpoint` class of `checkpoint.py`, reduced to the row content of
its backing dataframe `_events_df`. -/
structure Checkpoint where
  events_df : List VisitEvent
deriving DecidableEq, Repr

/-- `Checkpoint.from_events`: wraps `events_to_dataframe(events)`; the source
performs no sort here. -/
def Checkpoint.from_events (events : List VisitEvent) : Checkpoint :=
  ⟨events_to_dataframe events⟩

/-- `Checkpoint.empty`: the constructor with no dataframe, backed by
`create_checkpoint_dataframe()`. -/
def Checkpoint.empty : Checkpoint :=
  ⟨create_checkpoint_dataframe⟩

/-- `Checkpoint.get_event_count`: `len(self._events_df)`. -/
def Checkpoint.get_event_count (c : Checkpoint) : Nat :=
  c.events_df.length

/-- `Checkpoint.is_empty`: `len(self._events_df) == 0`. -/
def Checkpoint.is_empty (c : Checkpoint) : Bool :=
  c.events_df.length == 0

/-- `Checkpoint.get_last_processed_timestamp`: `None` when empty, otherwise
the maximum of the timestamp column. -/
def Checkpoint.get_last_processed_timestamp (c : Checkpoint) : Option Int :=
  if c.is_empty then none else (c.events_df.map (fun e => e.timestamp)).max?

/-- `Checkpoint.add_events`: for an empty batch, a clone of the current frame
(fresh instance, same row content, no sort); otherwise the new events are
converted to a frame, concatenated after the existing rows (skipping the
concat when the current checkpoint is empty) and sorted by timestamp. -/
def Checkpoint.add_events (c : Checkpoint) (new_events : List VisitEvent) : Checkpoint :=
  if new_events.isEmpty then
    ⟨c.events_df⟩
  else
    let new_events_df := events_to_dataframe new_events
    let merged_df := if c.is_empty then new_events_df else c.events_df ++ new_events_df
    ⟨sortByTimestamp merged_df⟩

/-- Row content of `events_to_dataframe` is the input event list in order
(the empty branch returns the empty frame, whose row list is also `[]`). -/
theorem events_to_dataframe_eq (events : List VisitEvent) :
    events_to_dataframe events = events := by
  cases events <;> simp [events_to_dataframe, create_checkpoint_dataframe]

/-- A checkpoint is empty exactly when its backing frame has no rows. -/
theorem is_empty_eq_true_iff (c : Checkpoint) :
    c.is_empty = true ↔ c.events_df = [] := by
  simp [Checkpoint.is_empty, List.length_eq_zero]

/-- For a non-empty batch, `add_events` produces the sorted concatenation of
the prior rows and the new rows (the empty-checkpoint shortcut coincides with
concatenation because the prior row list is `[]`). -/
theorem add_events_df_eq (C : Checkpoint) (E : List VisitEvent)
    (hE : E.isEmpty = false) :
    (C.add_events E).events_df = sortByTimestamp (C.events_df ++ E) := by
  by_cases hC : C.is_empty = true
  · have hnil : C.events_df = [] := (is_empty_eq_true_iff C).mp hC
    simp [Checkpoint.add_events, hE, hC, events_to_dataframe_eq, hnil]
  · simp [Checkpoint.add_events, hE, hC, events_to_dataframe_eq]

/-- A fixed fully-populated event used for concrete instances; only the
timestamp varies. -/
def sampleEvent (ts : Int) : VisitEvent :=
  { action := VisitEventType.submit
    study := "adrc"
    pipeline_adcid := 123
    project_label := "test-project"
    center_label := "test-center"
    gear_name := "test-gear"
    ptid := "ABC123"
    visit_date := "2024-01-15"
    visit_number := none
    datatype := DatatypeNameType.dicom
    module := none
    packet := none
    timestamp := ts }

/-- C1 (amended): for every checkpoint C and event list E, `C.add_events E`
has event count `C.get_event_count + E.length` and its rows are a permutation
of C's rows followed by E (so every row of C and every row of E is contained
unchanged) — both unconditionally, including the empty batch on an unsorted
checkpoint; and, provided C's rows are already timestamp-sorted or E is
non-empty, the result is sorted non-decreasing by timestamp.  C itself is
never modified (the embedding is pure; the source clones the frame even for an
empty batch).  The proviso on the sortedness clause alone is forced by the
source: an empty batch takes the clone branch, which does not sort, and an
unsorted checkpoint is reachable because `from_events` does not sort. -/
theorem add_events_correct (C : Checkpoint) (E : List VisitEvent) :
    (C.add_events E).get_event_count = C.get_event_count + E.length ∧
    List.Perm (C.add_events E).events_df (C.events_df ++ E) ∧
    (List.Sorted tsLE C.events_df ∨ E ≠ [] →
      List.Sorted tsLE (C.add_events E).events_df) := by
  by_cases hE : E.isEmpty
  · have hEnil : E = [] := List.isEmpty_iff.mp hE
    subst hEnil
    have hdf : (C.add_events []).events_df = C.events_df := by
      simp [Checkpoint.add_events]
    refine ⟨by simp [Checkpoint.get_event_count, hdf], by simp [hdf], ?_⟩
    intro h
    rw [hdf]
    rcases h with hs | hne
    · exact hs
    · exact absurd rfl hne
  · have hE : E.isEmpty = false := by simpa using hE
    have hdf := add_events_df_eq C E hE
    have hperm : List.Perm (C.add_events E).events_df (C.events_df ++ E) := by
      rw [hdf]
      exact List.perm_insertionSort tsLE (C.events_df ++ E)
    refine ⟨?_, hperm, ?_⟩
    · have := hperm.length_eq
      simpa [Checkpoint.get_event_count, List.length_append] using this
    · intro _
      rw [hdf]
      exact List.sorted_insertionSort tsLE (C.events_df ++ E)

/-- Witness for C1: the amended theorem applied at a concrete sorted
checkpoint and a concrete non-empty batch, with the sortedness proviso
discharged there. -/
theorem add_events_correct_witness :
    ((Checkpoint.from_events [sampleEvent 1]).add_events
        [sampleEvent 3, sampleEvent 2]).get_event_count
      = (Checkpoint.from_events [sampleEvent 1]).get_event_count
        + [sampleEvent 3, sampleEvent 2].length ∧
    List.Perm
      ((Checkpoint.from_events [sampleEvent 1]).add_events
        [sampleEvent 3, sampleEvent 2]).events_df
      ((Checkpoint.from_events [sampleEvent 1]).events_df
        ++ [sampleEvent 3, sampleEvent 2]) ∧
    List.Sorted tsLE
      ((Checkpoint.from_events [sampleEvent 1]).add_events
        [sampleEvent 3, sampleEvent 2]).events_df :=
  ⟨(add_events_correct (Checkpoint.from_events [sampleEvent 1])
      [sampleEvent 3, sampleEvent 2]).1,
   (add_events_correct (Checkpoint.from_events [sampleEvent 1])
      [sampleEvent 3, sampleEvent 2]).2.1,
   (add_events_correct (Checkpoint.from_events [sampleEvent 1])
      [sampleEvent 3, sampleEvent 2]).2.2 (Or.inr (by decide))⟩

/-- Counterexample to C1 as stated: a checkpoint whose rows are not
timestamp-sorted (reachable, since `from_events` performs no sort) merged with
the empty batch yields an unsorted result, contradicting the claim that the
result of `add_events` is always sorted. -/
theorem add_events_claim_counterexample :
    ¬ List.Sorted tsLE
      ((Checkpoint.from_events [sampleEvent 2, sampleEvent 1]).add_events
        []).events_df := by
  decide

/-- C7 (code bug): `Checkpoint.from_events` performs no sort, so the rows of
`from_events [e2, e1]` with `e2.timestamp > e1.timestamp` stay in input order
and are not timestamp-sorted, contradicting the spec ("builds and sorts") and
the repository's own property test that asserts sortedness of checkpoints
built this way; the empty-list clause (content equal to `empty()`) does hold. -/
theorem from_events_not_sorted_at_input :
    (Checkpoint.from_events [sampleEvent 2, sampleEvent 1]).events_df
        = [sampleEvent 2, sampleEvent 1] ∧
    ¬ List.Sorted tsLE
        (Checkpoint.from_events [sampleEvent 2, sampleEvent 1]).events_df ∧
    (Checkpoint.from_events []).events_df = Checkpoint.empty.events_df :=
  ⟨rfl, by decide, rfl⟩

/-- Column dtypes relevant to the checkpoint frame: polars `Utf8`, `Int32`,
`Int64`, `Datetime("us", time_zone="UTC")` and the `Null` dtype polars infers
for a column whose values are all `None`. -/
inductive Dtype where
  | Utf8
  | Int32
  | Int64
  | DatetimeUsUTC
  | NullType
deriving DecidableEq, Repr

/-- Dtype schema of `create_checkpoint_dataframe()` in `checkpoint.py`: the
explicitly declared column names, order and dtypes of the empty checkpoint
frame. -/
def checkpointSchema : List (String × Dtype) :=
  [("action", Dtype.Utf8),
   ("study", Dtype.Utf8),
   ("pipeline_adcid", Dtype.Int32),
   ("project_label", Dtype.Utf8),
   ("center_label", Dtype.Utf8),
   ("gear_name", Dtype.Utf8),
   ("ptid", Dtype.Utf8),
   ("visit_date", Dtype.Utf8),
   ("visit_number", Dtype.Utf8),
   ("datatype", Dtype.Utf8),
   ("module", Dtype.Utf8),
   ("packet", Dtype.Utf8),
   ("timestamp", Dtype.DatetimeUsUTC)]

/-- Polars dtype inference for an optional string column of a
`DataFrame(list-of-dicts)` construction: `Null` when every value is `None`,
else `Utf8`. -/
def inferOptStrDtype (vals : List (Option String)) : Dtype :=
  if vals.all (fun v => v.isNone) then Dtype.NullType else Dtype.Utf8

/-- Polars dtype inference for the optional `module` column (module names are
dumped as strings): `Null` when every value is `None`, else `Utf8`. -/
def inferOptModuleDtype (vals : List (Option ModuleName)) : Dtype :=
  if vals.all (fun v => v.isNone) then Dtype.NullType else Dtype.Utf8

/-- Dtype schema polars infers for `DataFrame(data)` in `events_to_dataframe`
when `data` is the non-empty list of `model_dump()` dicts: columns follow the
model's field order; Python `str` fields infer `Utf8`, the Python `int`
`pipeline_adcid` infers `Int64` (not the `Int32` of the declared empty
schema), timezone-aware datetimes infer `Datetime("us", "UTC")`, and an
optional column whose values are all `None` infers `Null`. -/
def inferredEventsSchema (events : List VisitEvent) : List (String × Dtype) :=
  [("action", Dtype.Utf8),
   ("study", Dtype.Utf8),
   ("pipeline_adcid", Dtype.Int64),
   ("project_label", Dtype.Utf8),
   ("center_label", Dtype.Utf8),
   ("gear_name", Dtype.Utf8),
   ("ptid", Dtype.Utf8),
   ("visit_date", Dtype.Utf8),
   ("visit_number", inferOptStrDtype (events.map (fun e => e.visit_number))),
   ("datatype", Dtype.Utf8),
   ("module", inferOptModuleDtype (events.map (fun e => e.module))),
   ("packet", inferOptStrDtype (events.map (fun e => e.packet))),
   ("timestamp", Dtype.DatetimeUsUTC)]

/-- Dtype schema of the frame returned by `events_to_dataframe(events)`: the
declared `checkpointSchema` for the empty branch, the inferred schema
otherwise. -/
def events_to_dataframe_schema (events : List VisitEvent) : List (String × Dtype) :=
  if events.isEmpty then checkpointSchema else inferredEventsSchema events

/-- C5 (amended): checkpoint frames keep the same column names and order
across empty and non-empty instances, and the empty frame declares
`pipeline_adcid : Int32`; but the frame built from a non-empty event list has
the inferred dtype `Int64` for `pipeline_adcid`, so the column types are not
identical between empty and non-empty checkpoints.  The `timestamp` column is
microsecond-precision UTC datetime in both. -/
theorem checkpoint_schema_types_differ (events : List VisitEvent)
    (h : events ≠ []) :
    (events_to_dataframe_schema events).map Prod.fst
        = checkpointSchema.map Prod.fst ∧
    (events_to_dataframe_schema events)[2]? = some ("pipeline_adcid", Dtype.Int64) ∧
    checkpointSchema[2]? = some ("pipeline_adcid", Dtype.Int32) ∧
    (events_to_dataframe_schema events)[12]? = some ("timestamp", Dtype.DatetimeUsUTC) ∧
    checkpointSchema[12]? = some ("timestamp", Dtype.DatetimeUsUTC) := by
  cases events with
  | nil => exact absurd rfl h
  | cons a l =>
    refine ⟨rfl, rfl, rfl, rfl, rfl⟩

/-- Witness for C5: the amended theorem applied at a concrete one-event
list. -/
theorem checkpoint_schema_types_differ_witness :
    (events_to_dataframe_schema [sampleEvent 1]).map Prod.fst
        = checkpointSchema.map Prod.fst ∧
    (events_to_dataframe_schema [sampleEvent 1])[2]? = some ("pipeline_adcid", Dtype.Int64) ∧
    checkpointSchema[2]? = some ("pipeline_adcid", Dtype.Int32) ∧
    (events_to_dataframe_schema [sampleEvent 1])[12]? = some ("timestamp", Dtype.DatetimeUsUTC) ∧
    checkpointSchema[12]? = some ("timestamp", Dtype.DatetimeUsUTC) :=
  checkpoint_schema_types_differ [sampleEvent 1] (by decide)

/-- Counterexample to C5 as stated: the dtype schema of a one-event frame is
not the fixed schema of the empty frame (its `pipeline_adcid` column infers
`Int64`, not `Int32`). -/
theorem checkpoint_schema_counterexample :
    events_to_dataframe_schema [sampleEvent 1] ≠ checkpointSchema := by
  decide

/-- The `S3EventRetriever` of `s3_retriever.py`, reduced to the fields the
claims depend on.  The source also stores a key prefix and a compiled
filename pattern; both only govern the S3 listing step, which is modelled
below by an explicit listing-outcome argument (the oracle returns the keys
the listing produced). -/
structure S3EventRetriever where
  bucket : String
  since_timestamp : Option Int
deriving Repr

/-- `S3EventRetriever.should_process_event`: process all events when no
`since_timestamp` is configured, otherwise only events with
`timestamp > since_timestamp`. -/
def S3EventRetriever.should_process_event (r : S3EventRetriever)
    (event : VisitEvent) : Bool :=
  match r.since_timestamp with
  | none => true
  | some t => decide (event.timestamp > t)

/-- Outcome of `retrieve_event(key)` for a single key: the S3 get, the JSON
decode and the pydantic validation can each fail (`ClientError`,
`json.JSONDecodeError`, `ValidationError`), or a validated event is
returned. -/
inductive FetchOutcome where
  | clientError (msg : String)
  | jsonDecodeError (msg : String)
  | validationError (msg : String)
  | ok (event : VisitEvent)
deriving DecidableEq, Repr

/-- One entry of the `validation_errors` list built by
`retrieve_and_validate_events`: a dict with the failed S3 key and the error
message. -/
structure ErrorEntry where
  source_key : String
  errors : String
deriving DecidableEq, Repr

/-- Loop body of `retrieve_and_validate_events` for one file key: on a
successful fetch the event is appended to the valid list when the timestamp
filter admits it (skipped otherwise); on any per-file failure an error entry
with that key and a message is appended to the error list. -/
def retrieveStep (r : S3EventRetriever) (fetch : String → FetchOutcome)
    (acc : List VisitEvent × List ErrorEntry) (file_key : String) :
    List VisitEvent × List ErrorEntry :=
  match fetch file_key with
  | FetchOutcome.ok visit_event =>
    if r.should_process_event visit_event then (acc.1 ++ [visit_event], acc.2)
    else acc
  | FetchOutcome.clientError m =>
    (acc.1, acc.2 ++ [{ source_key := file_key, errors := "S3 error: " ++ m }])
  | FetchOutcome.jsonDecodeError m =>
    (acc.1, acc.2 ++ [{ source_key := file_key, errors := "JSON decode error: " ++ m }])
  | FetchOutcome.validationError m =>
    (acc.1, acc.2 ++ [{ source_key := file_key, errors := m }])

/-- `S3EventRetriever.retrieve_and_validate_events`: an S3 listing failure is
re-raised (aborting the operation); otherwise every listed key is processed
in order by `retrieveStep`, collecting per-file failures instead of raising. -/
def S3EventRetriever.retrieve_and_validate_events (r : S3EventRetriever)
    (listing : Except String (List String))
    (fetch : String → FetchOutcome) :
    Except String (List VisitEvent × List ErrorEntry) :=
  match listing with
  | Except.error e => Except.error e
  | Except.ok event_files =>
    Except.ok (event_files.foldl (retrieveStep r fetch) ([], []))

/-- Selector characterising which keys contribute a valid event: a key whose
fetch succeeds and whose event passes the timestamp filter. -/
def validSelector (r : S3EventRetriever) (fetch : String → FetchOutcome)
    (key : String) : Option VisitEvent :=
  match fetch key with
  | FetchOutcome.ok e => if r.should_process_event e then some e else none
  | _ => none

/-- Selector characterising which keys contribute an error entry: a key whose
fetch fails, together with the entry recorded for it. -/
def errorSelector (fetch : String → FetchOutcome) (key : String) :
    Option ErrorEntry :=
  match fetch key with
  | FetchOutcome.clientError m => some { source_key := key, errors := "S3 error: " ++ m }
  | FetchOutcome.jsonDecodeError m => some { source_key := key, errors := "JSON decode error: " ++ m }
  | FetchOutcome.validationError m => some { source_key := key, errors := m }
  | FetchOutcome.ok _ => none

/-- Test for a per-file failure outcome. -/
def fetchFails : FetchOutcome → Bool
  | FetchOutcome.ok _ => false
  | _ => true

/-- The retrieval fold appends exactly the selected valid events and the
selected error entries, in listing order. -/
theorem foldl_retrieveStep_eq (r : S3EventRetriever)
    (fetch : String → FetchOutcome) (keys : List String) :
    ∀ (vs : List VisitEvent) (es : List ErrorEntry),
    List.foldl (retrieveStep r fetch) (vs, es) keys
      = (vs ++ keys.filterMap (validSelector r fetch),
         es ++ keys.filterMap (errorSelector fetch)) := by
  induction keys with
  | nil => intro vs es; simp
  | cons k keys ih =>
    intro vs es
    rw [List.foldl_cons]
    cases hf : fetch k with
    | ok e =>
      by_cases hp : r.should_process_event e = true
      · rw [show retrieveStep r fetch (vs, es) k = (vs ++ [e], es) from by
          simp [retrieveStep, hf, hp]]
        rw [ih]
        simp [validSelector, errorSelector, hf, hp]
      · rw [show retrieveStep r fetch (vs, es) k = (vs, es) from by
          simp [retrieveStep, hf, hp]]
        rw [ih]
        simp [validSelector, errorSelector, hf, hp]
    | clientError m =>
      rw [show retrieveStep r fetch (vs, es) k
          = (vs, es ++ [{ source_key := k, errors := "S3 error: " ++ m }]) from by
        simp [retrieveStep, hf]]
      rw [ih]
      simp [validSelector, errorSelector, hf]
    | jsonDecodeError m =>
      rw [show retrieveStep r fetch (vs, es) k
          = (vs, es ++ [{ source_key := k, errors := "JSON decode error: " ++ m }]) from by
        simp [retrieveStep, hf]]
      rw [ih]
      simp [validSelector, errorSelector, hf]
    | validationError m =>
      rw [show retrieveStep r fetch (vs, es) k
          = (vs, es ++ [{ source_key := k, errors := m }]) from by
        simp [retrieveStep, hf]]
      rw [ih]
      simp [validSelector, errorSelector, hf]

/-- The error entries collected over a key list carry exactly the failed keys,
in listing order. -/
theorem errors_keys_eq (fetch : String → FetchOutcome) (keys : List String) :
    (keys.filterMap (errorSelector fetch)).map (fun en => en.source_key)
      = keys.filter (fun k => fetchFails (fetch k)) := by
  induction keys with
  | nil => rfl
  | cons k keys ih =>
    cases hf : fetch k <;> simp [errorSelector, fetchFails, hf, ih]

/-- C3: `should_process_event` returns true when no `since_timestamp` is
configured, and otherwise returns true exactly when the event's timestamp is
strictly greater than the cutoff (an event whose timestamp equals the cutoff
is excluded). -/
theorem should_process_event_spec (r : S3EventRetriever) (e : VisitEvent) :
    r.should_process_event e = true ↔
      (r.since_timestamp = none ∨
        ∃ t, r.since_timestamp = some t ∧ e.timestamp > t) := by
  cases hs : r.since_timestamp with
  | none => simp [S3EventRetriever.should_process_event, hs]
  | some t => simp [S3EventRetriever.should_process_event, hs]

/-- C2: on a successful listing, `retrieve_and_validate_events` returns (never
raising for a per-file failure) exactly the successfully fetched events
admitted by the timestamp filter, in listing order, as the valid list, and
exactly one error entry per failed key — the error entries carry exactly the
failed keys, in listing order; a failure of the listing step itself is
re-raised unchanged. -/
theorem retrieve_and_validate_events_spec (r : S3EventRetriever)
    (fetch : String → FetchOutcome) :
    (∀ keys : List String,
      r.retrieve_and_validate_events (Except.ok keys) fetch
        = Except.ok (keys.filterMap (validSelector r fetch),
                     keys.filterMap (errorSelector fetch))) ∧
    (∀ keys : List String,
      (keys.filterMap (errorSelector fetch)).map (fun en => en.source_key)
        = keys.filter (fun k => fetchFails (fetch k))) ∧
    (∀ msg : String,
      r.retrieve_and_validate_events (Except.error msg) fetch
        = Except.error msg) := by
  refine ⟨fun keys => ?_, fun keys => errors_keys_eq fetch keys, fun msg => rfl⟩
  simp [S3EventRetriever.retrieve_and_validate_events, foldl_retrieveStep_eq]

/-- C10: the listed keys are partitioned — the result lists are exactly the
selected valid events and the selected error entries in listing order, no key
selects into both lists, and a key selects into neither list exactly when its
fetch succeeded but the timestamp filter excluded the event. -/
theorem retrieve_and_validate_partition (r : S3EventRetriever)
    (fetch : String → FetchOutcome) (keys : List String) :
    ∃ vs es,
      r.retrieve_and_validate_events (Except.ok keys) fetch
          = Except.ok (vs, es) ∧
      vs = keys.filterMap (validSelector r fetch) ∧
      es = keys.filterMap (errorSelector fetch) ∧
      (∀ k, ¬((validSelector r fetch k).isSome = true ∧
              (errorSelector fetch k).isSome = true)) ∧
      (∀ k, (validSelector r fetch k = none ∧ errorSelector fetch k = none) ↔
            ∃ e, fetch k = FetchOutcome.ok e ∧
              r.should_process_event e = false) := by
  refine ⟨_, _, ?_, rfl, rfl, ?_, ?_⟩
  · simp [S3EventRetriever.retrieve_and_validate_events, foldl_retrieveStep_eq]
  · intro k
    cases hf : fetch k with
    | ok e =>
      cases hp : r.should_process_event e <;>
        simp [validSelector, errorSelector, hf, hp]
    | clientError m => simp [validSelector, errorSelector, hf]
    | jsonDecodeError m => simp [validSelector, errorSelector, hf]
    | validationError m => simp [validSelector, errorSelector, hf]
  · intro k
    cases hf : fetch k with
    | ok e =>
      cases hp : r.should_process_event e <;>
        simp [validSelector, errorSelector, hf, hp]
    | clientError m => simp [validSelector, errorSelector, hf]
    | jsonDecodeError m => simp [validSelector, errorSelector, hf]
    | validationError m => simp [validSelector, errorSelector, hf]

/-- The `CheckpointError` exception of `checkpoint_store.py`, carrying its
message. -/
structure CheckpointError where
  msg : String
deriving DecidableEq, Repr

/-- Outcome of `polars.read_parquet("s3://bucket/key")` in
`CheckpointStore.load`: the parsed frame, a `FileNotFoundError` for a missing
object, a polars `ComputeError` or other `PolarsError` for an unparseable
object, or a boto3 `ClientError` for an S3 access failure. -/
inductive ReadParquetOutcome where
  | success (df : List VisitEvent)
  | fileNotFound
  | computeError (msg : String)
  | polarsError (msg : String)
  | clientError (msg : String)
deriving DecidableEq, Repr

/-- Outcome of `head_object` in `CheckpointStore.exists`: success, or a
`ClientError` carrying its error code and message. -/
inductive HeadObjectOutcome where
  | success
  | clientError (code : String) (msg : String)
deriving DecidableEq, Repr

/-- The `CheckpointStore` of `checkpoint_store.py`: the bound S3 bucket and
key.  The shared boto3 client is abstracted; each method takes the outcome of
its single storage call as an explicit argument. -/
structure CheckpointStore where
  bucket : String
  key : String
deriving DecidableEq, Repr

/-- `CheckpointStore.load`: a successful parquet read yields a checkpoint with
the stored rows; `FileNotFoundError` yields `None` (first run); polars errors
and S3 client errors are wrapped into `CheckpointError` with the source's
message prefixes. -/
def CheckpointStore.load (store : CheckpointStore)
    (outcome : ReadParquetOutcome) : Except CheckpointError (Option Checkpoint) :=
  match outcome with
  | ReadParquetOutcome.success df => Except.ok (some ⟨df⟩)
  | ReadParquetOutcome.fileNotFound => Except.ok none
  | ReadParquetOutcome.computeError m =>
    Except.error ⟨"Failed to load checkpoint: " ++ m⟩
  | ReadParquetOutcome.polarsError m =>
    Except.error ⟨"Failed to load checkpoint: " ++ m⟩
  | ReadParquetOutcome.clientError m =>
    Except.error ⟨"S3 error loading checkpoint: " ++ m⟩

/-- `CheckpointStore.exists`: `head_object` success yields true; a
`ClientError` with code `NoSuchKey` yields false; any other `ClientError` is
wrapped into `CheckpointError`. -/
def CheckpointStore.exists (store : CheckpointStore)
    (outcome : HeadObjectOutcome) : Except CheckpointError Bool :=
  match outcome with
  | HeadObjectOutcome.success => Except.ok true
  | HeadObjectOutcome.clientError code msg =>
    if code = "NoSuchKey" then Except.ok false
    else Except.error ⟨"S3 access error: " ++ msg⟩

/-- C8: `load` returns `None` when the checkpoint object does not exist,
returns a checkpoint holding exactly the stored rows when the object exists
and parses, and raises `CheckpointError` when the object cannot be parsed
(polars compute or other polars error) or the storage access fails. -/
theorem checkpoint_store_load_spec (store : CheckpointStore) :
    store.load ReadParquetOutcome.fileNotFound = Except.ok none ∧
    (∀ df : List VisitEvent,
      store.load (ReadParquetOutcome.success df) = Except.ok (some ⟨df⟩)) ∧
    (∀ m, store.load (ReadParquetOutcome.computeError m)
        = Except.error ⟨"Failed to load checkpoint: " ++ m⟩) ∧
    (∀ m, store.load (ReadParquetOutcome.polarsError m)
        = Except.error ⟨"Failed to load checkpoint: " ++ m⟩) ∧
    (∀ m, store.load (ReadParquetOutcome.clientError m)
        = Except.error ⟨"S3 error loading checkpoint: " ++ m⟩) :=
  ⟨rfl, fun _ => rfl, fun _ => rfl, fun _ => rfl, fun _ => rfl⟩

/-- C9: `exists` returns true exactly on `head_object` success, maps the
storage object-not-found outcome (a `ClientError` with code `NoSuchKey`, as
the repository's tests model it) to false, and raises `CheckpointError` for
every other storage access failure. -/
theorem checkpoint_store_exists_spec (store : CheckpointStore) :
    store.exists HeadObjectOutcome.success = Except.ok true ∧
    (∀ m, store.exists (HeadObjectOutcome.clientError "NoSuchKey" m)
        = Except.ok false) ∧
    (∀ code m, code ≠ "NoSuchKey" →
      store.exists (HeadObjectOutcome.clientError code m)
        = Except.error ⟨"S3 access error: " ++ m⟩) := by
  refine ⟨rfl, fun m => rfl, fun code m hc => ?_⟩
  simp [CheckpointStore.exists, hc]

/-- Sample store binding for concrete instances. -/
def storeSample : CheckpointStore :=
  { bucket := "cp-bucket", key := "checkpoints/checkpoint.parquet" }

/-- Witness for C9: a concrete non-NoSuchKey client error raises
`CheckpointError`. -/
theorem checkpoint_store_exists_witness :
    storeSample.exists (HeadObjectOutcome.clientError "AccessDenied" "denied")
      = Except.error ⟨"S3 access error: " ++ "denied"⟩ :=
  (checkpoint_store_exists_spec storeSample).2.2 "AccessDenied" "denied" (by decide)

/-- Raw input to `VisitEvent.model_validate` after JSON decoding: the field
dict of `models.py`.  Enum-constrained fields arrive as strings; the
numeric-string coercion of `pipeline_adcid` and the ISO-8601 parse of
`timestamp` are abstracted as already done (the claims do not concern them). -/
structure RawVisitEvent where
  action : String
  study : String
  pipeline_adcid : Int
  project_label : String
  center_label : String
  gear_name : String
  ptid : String
  visit_date : String
  visit_number : Option String
  datatype : String
  module : Option String
  packet : Option String
  timestamp : Int
deriving DecidableEq, Repr

/-- Model of Python `str.strip()` as applied by pydantic's
`str_strip_whitespace=True`: leading and trailing whitespace characters are
removed (structurally, so that concrete instances evaluate). -/
def pyStrip (s : String) : String :=
  String.mk (((s.toList.dropWhile Char.isWhitespace).reverse.dropWhile
    Char.isWhitespace).reverse)

/-- The `VisitEventType` literal check: `submit | delete | not-pass-qc |
pass-qc`. -/
def parseAction : String → Option VisitEventType
  | "submit" => some VisitEventType.submit
  | "delete" => some VisitEventType.delete
  | "not-pass-qc" => some VisitEventType.notPassQc
  | "pass-qc" => some VisitEventType.passQc
  | _ => none

/-- The `DatatypeNameType` literal check. -/
def parseDatatype : String → Option DatatypeNameType
  | "apoe" => some DatatypeNameType.apoe
  | "biomarker" => some DatatypeNameType.biomarker
  | "dicom" => some DatatypeNameType.dicom
  | "enrollment" => some DatatypeNameType.enrollment
  | "form" => some DatatypeNameType.form
  | "genetic-availability" => some DatatypeNameType.geneticAvailability
  | "gwas" => some DatatypeNameType.gwas
  | "imputation" => some DatatypeNameType.imputation
  | "scan-analysis" => some DatatypeNameType.scanAnalysis
  | _ => none

/-- The `ModuleName` literal check: `UDS | FTLD | LBD | MDS`. -/
def parseModuleName : String → Option ModuleName
  | "UDS" => some ModuleName.UDS
  | "FTLD" => some ModuleName.FTLD
  | "LBD" => some ModuleName.LBD
  | "MDS" => some ModuleName.MDS
  | _ => none

/-- The `ptid` constraint of `models.py`: pattern `^[!-~]{1,10}$` (1 to 10
printable non-whitespace ASCII characters) together with `max_length=10`. -/
def ptidOk (s : String) : Bool :=
  decide (1 ≤ s.length) && decide (s.length ≤ 10) &&
    s.toList.all (fun c => decide (33 ≤ c.toNat) && decide (c.toNat ≤ 126))

/-- The `visit_date` constraint of `models.py`: pattern
`^\d\x7b4\x7d-\d\x7b2\x7d-\d\x7b2\x7d$` (YYYY-MM-DD, digits and hyphens only,
not parsed as a date). -/
def visitDateOk (s : String) : Bool :=
  match s.toList with
  | [y1, y2, y3, y4, h1, m1, m2, h2, d1, d2] =>
    y1.isDigit && y2.isDigit && y3.isDigit && y4.isDigit && (h1 == '-') &&
      m1.isDigit && m2.isDigit && (h2 == '-') && d1.isDigit && d2.isDigit
  | _ => false

/-- Construction of the validated record from a raw record whose enum fields
parsed; string fields are whitespace-stripped (`str_strip_whitespace=True`). -/
def buildVisitEvent (raw : RawVisitEvent) (action : VisitEventType)
    (datatype : DatatypeNameType) (moduleName : Option ModuleName) : VisitEvent :=
  { action := action
    study := pyStrip raw.study
    pipeline_adcid := raw.pipeline_adcid
    project_label := pyStrip raw.project_label
    center_label := pyStrip raw.center_label
    gear_name := pyStrip raw.gear_name
    ptid := pyStrip raw.ptid
    visit_date := pyStrip raw.visit_date
    visit_number := raw.visit_number.map (fun s => pyStrip s)
    datatype := datatype
    module := moduleName
    packet := raw.packet.map (fun s => pyStrip s)
    timestamp := raw.timestamp }

/-- The `validate_module` model validator of `models.py`: a non-form datatype
with a module set is an error, and datatype form with no module is an error
(messages abbreviated from the source's f-strings). -/
def VisitEvent.validate_module (e : VisitEvent) : Except String VisitEvent :=
  if e.datatype ≠ DatatypeNameType.form ∧ e.module ≠ none then
    Except.error "Visit event has non-form datatype, but has form module"
  else if e.datatype = DatatypeNameType.form ∧ e.module = none then
    Except.error "Expected module name for form datatype"
  else
    Except.ok e

/-- `VisitEvent.model_validate`: field-level validation (enum membership for
`action`, `datatype`, `module`; patterns for `ptid` and `visit_date`; strings
whitespace-stripped) followed by the `validate_module` model validator.  The
source (pydantic) collects all field errors; this model fails on the first,
which the spec explicitly allows — success is equivalent. -/
def VisitEvent.model_validate (raw : RawVisitEvent) : Except String VisitEvent :=
  match parseAction (pyStrip raw.action) with
  | none => Except.error "action: input should be a valid enumeration member"
  | some action =>
    match parseDatatype (pyStrip raw.datatype) with
    | none => Except.error "datatype: input should be a valid enumeration member"
    | some datatype =>
      if ptidOk (pyStrip raw.ptid) = false then
        Except.error "ptid: string should match pattern"
      else if visitDateOk (pyStrip raw.visit_date) = false then
        Except.error "visit_date: string should match pattern"
      else
        match raw.module with
        | none => VisitEvent.validate_module (buildVisitEvent raw action datatype none)
        | some m =>
          match parseModuleName (pyStrip m) with
          | none => Except.error "module: input should be a valid enumeration member"
          | some moduleName =>
            VisitEvent.validate_module (buildVisitEvent raw action datatype (some moduleName))

/-- All field-level constraints other than the module/datatype cross-rule:
`action` and `datatype` are enum members, `ptid` and `visit_date` match their
patterns, and `module`, when present, is an enum member. -/
def fieldConstraintsOk (raw : RawVisitEvent) : Bool :=
  (parseAction (pyStrip raw.action)).isSome &&
    (parseDatatype (pyStrip raw.datatype)).isSome &&
    ptidOk (pyStrip raw.ptid) &&
    visitDateOk (pyStrip raw.visit_date) &&
    (match raw.module with
     | none => true
     | some m => (parseModuleName (pyStrip m)).isSome)

/-- C4: for every raw record whose other field constraints hold, validation
succeeds exactly when datatype `form` and a present module occur together —
a non-form datatype with a module set fails, and datatype form with module
absent fails. -/
theorem model_validate_module_rule (raw : RawVisitEvent)
    (h : fieldConstraintsOk raw = true) :
    (VisitEvent.model_validate raw).isOk = true ↔
      ((parseDatatype (pyStrip raw.datatype) = some DatatypeNameType.form) ↔
        raw.module ≠ none) := by
  simp only [fieldConstraintsOk, Bool.and_eq_true] at h
  obtain ⟨⟨⟨⟨h1, h2⟩, h3⟩, h4⟩, h5⟩ := h
  obtain ⟨a, ha⟩ := Option.isSome_iff_exists.mp h1
  obtain ⟨d, hd⟩ := Option.isSome_iff_exists.mp h2
  cases hm : raw.module with
  | none =>
    by_cases hdf : d = DatatypeNameType.form
    · subst hdf
      simp [VisitEvent.model_validate, ha, hd, h3, h4, hm,
        VisitEvent.validate_module, buildVisitEvent, Except.isOk, Except.toBool]
    · simp [VisitEvent.model_validate, ha, hd, h3, h4, hm,
        VisitEvent.validate_module, buildVisitEvent, hdf, Except.isOk, Except.toBool]
  | some m =>
    rw [hm] at h5
    obtain ⟨mm, hmm⟩ := Option.isSome_iff_exists.mp h5
    by_cases hdf : d = DatatypeNameType.form
    · subst hdf
      simp [VisitEvent.model_validate, ha, hd, h3, h4, hm, hmm,
        VisitEvent.validate_module, buildVisitEvent, Except.isOk, Except.toBool]
    · simp [VisitEvent.model_validate, ha, hd, h3, h4, hm, hmm,
        VisitEvent.validate_module, buildVisitEvent, hdf, Except.isOk, Except.toBool]

/-- A concrete raw record with datatype form and module UDS, satisfying every
field constraint. -/
def rawSampleForm : RawVisitEvent :=
  { action := "submit"
    study := "adrc"
    pipeline_adcid := 123
    project_label := "test-project"
    center_label := "test-center"
    gear_name := "test-gear"
    ptid := "PT1"
    visit_date := "2024-01-15"
    visit_number := none
    datatype := "form"
    module := some "UDS"
    packet := some "I"
    timestamp := 100 }

/-- Witness for C4: the theorem applied at a concrete form-datatype record
with a module present. -/
theorem model_validate_module_rule_witness :
    fieldConstraintsOk rawSampleForm = true ∧
    ((VisitEvent.model_validate rawSampleForm).isOk = true ↔
      ((parseDatatype (pyStrip rawSampleForm.datatype)
          = some DatatypeNameType.form) ↔ rawSampleForm.module ≠ none)) :=
  ⟨by decide, model_validate_module_rule rawSampleForm (by decide)⟩
